import Mathlib

/-!
Verification of the protocol-normalization core of a multi-vendor LLM client
library, as a shallow embedding in Lean.  The definitions below are direct
translations of the Rust source: the unified data model (`src/types`), the
per-vendor request translators and response parsers (`src/providers/*/convert.rs`),
and the streaming normalizers (`src/providers/*/stream.rs`).  Machine integers
(`u32`, `u64`) are modelled as `Nat`; `f32` option fields, which the modelled
code only threads through unchanged, are modelled as `Option Rat`; JSON values
(`serde_json::Value`) are modelled by the `Json` inductive below; `Result<T>`
becomes `Except Error T`; external randomness (UUID generation, wall-clock
stream ids) is abstracted as explicit generator arguments.
-/

/-- JSON values, modelling `serde_json::Value`.  Numbers are modelled as `Int`
(no claim under study computes with JSON numbers) and objects as association
lists in emission order. -/
inductive Json where
  | null : Json
  | bool (b : Bool) : Json
  | num (n : Int) : Json
  | str (s : String) : Json
  | arr (elems : List Json) : Json
  | obj (fields : List (String × Json)) : Json

/-- Look up a key in a JSON object field list (first match), modelling map access. -/
def jlookup (k : String) (fields : List (String × Json)) : Option Json :=
  (fields.find? (fun f => f.1 = k)).map (fun f => f.2)

/-- `Value::as_str` : `Some s` exactly on JSON strings. -/
def Json.asStr : Json → Option String
  | .str s => some s
  | _ => none

/-- The SDK error type (`src/error.rs`), restricted to the constructors the
modelled code paths build. -/
inductive Error where
  | invalidResponse (msg : String) : Error
  | streamError (msg : String) : Error
deriving DecidableEq

/-- The role of a message sender (`src/types/message.rs`). -/
inductive Role where
  | system | user | assistant | tool
deriving DecidableEq

/-- Image detail level (`src/types/message.rs`). -/
inductive ImageDetail where
  | low | high | auto
deriving DecidableEq

/-- A part of message content (`src/types/message.rs`, `ContentPart`). -/
inductive ContentPart where
  | text (text : String) : ContentPart
  | image (url : String) (detail : Option ImageDetail) : ContentPart
  | toolCall (id : String) (name : String) (arguments : Json) : ContentPart
  | toolResult (tool_call_id : String) (content : Json) : ContentPart

/-- Message content: a bare string or structured parts (`MessageContent`). -/
inductive MessageContent where
  | text (s : String) : MessageContent
  | parts (ps : List ContentPart) : MessageContent

/-- `MessageContent::parts`: text becomes a single text part. -/
def MessageContent.toParts : MessageContent → List ContentPart
  | .text t => [.text t]
  | .parts ps => ps

/-- `MessageContent::text`: the text of the `Text` variant, or the fold of the
text parts of the `Parts` variant (no separator), `none` when there are none. -/
def MessageContent.textOf : MessageContent → Option String
  | .text t => some t
  | .parts ps =>
    (ps.filterMap (fun p => match p with | .text t => some t | _ => none)).foldl
      (fun acc t => match acc with | none => some t | some a => some (a ++ t)) none

/-- A message in a conversation (`Message`). -/
structure Message where
  role : Role
  content : MessageContent
  name : Option String

/-- `Message::text`. -/
def Message.text (m : Message) : Option String := m.content.textOf

/-- `Message::parts`. -/
def Message.partsOf (m : Message) : List ContentPart := m.content.toParts

/-- A tool function definition (`src/types/options.rs`, `ToolFunction`). -/
structure ToolFunction where
  name : String
  description : String
  parameters : Json

/-- A tool definition (`Tool`). -/
structure Tool where
  tool_type : String
  function : ToolFunction

/-- Tool-choice policy (`ToolChoice`). -/
inductive ToolChoice where
  | auto | none | required (name : String)

/-- Generation options (`GenerateOptions`).  The `f32` sampling knobs are
modelled as `Option Rat`; the modelled code only copies them. -/
structure GenerateOptions where
  temperature : Option Rat
  max_tokens : Option Nat
  top_p : Option Rat
  stop_sequences : Option (List String)
  tools : Option (List Tool)
  tool_choice : Option ToolChoice
  frequency_penalty : Option Rat
  presence_penalty : Option Rat
  headers : Option (List (String × String))

/-- Empty options, modelling `GenerateOptions::default()`. -/
def GenerateOptions.empty : GenerateOptions :=
  ⟨none, none, none, none, none, none, none, none, none⟩

/-- A generation request (`src/types/request.rs`, `GenerateRequest`). -/
structure GenerateRequest where
  model : String
  messages : List Message
  options : GenerateOptions

/-- Token usage statistics (`src/types/response.rs`, `Usage`). -/
structure Usage where
  prompt_tokens : Nat
  completion_tokens : Nat
  total_tokens : Nat
deriving DecidableEq

/-- `Usage::default()`: all counters zero. -/
def Usage.zero : Usage := ⟨0, 0, 0⟩

/-- Why generation finished (`FinishReason`). -/
inductive FinishReason where
  | stop | length | contentFilter | toolCalls | other
deriving DecidableEq

/-- A tool call in a response (`ToolCall`). -/
structure ToolCall where
  id : String
  name : String
  arguments : Json

/-- Content in a response (`ResponseContent`). -/
inductive ResponseContent where
  | text (text : String) : ResponseContent
  | toolCall (call : ToolCall) : ResponseContent

/-- Whether a response content item is a tool call (the
`matches!(c, ResponseContent::ToolCall(_))` test of the parsers). -/
def ResponseContent.isToolCall : ResponseContent → Bool
  | .toolCall _ => true
  | _ => false

/-- A complete generation response (`GenerateResponse`). -/
structure GenerateResponse where
  content : List ResponseContent
  usage : Usage
  finish_reason : FinishReason
  metadata : Option Json

/-- Unified streaming events (`src/types/stream.rs`, `StreamEvent`). -/
inductive StreamEvent where
  | start (id : String) : StreamEvent
  | textDelta (id : String) (delta : String) : StreamEvent
  | toolCallStart (id : String) (name : String) : StreamEvent
  | toolCallDelta (id : String) (delta : String) : StreamEvent
  | toolCallEnd (id : String) (name : String) (arguments : Json) : StreamEvent
  | finish (usage : Usage) (reason : FinishReason) : StreamEvent
  | error (message : String) : StreamEvent

/-- A terminal item of a normalized stream: a `Finish` event, an `Error` event,
or a yielded stream error (`Err` item). -/
def isTerminalItem : Except Error StreamEvent → Bool
  | .ok (.finish _ _) => true
  | .ok (.error _) => true
  | .error _ => true
  | _ => false

/-- Short-circuiting monadic map over `Except`, modelling
`collect::<Result<Vec<_>, _>>()`: the first error wins, otherwise all results
are collected in order. -/
def exceptMapM {α β ε : Type} (f : α → Except ε β) : List α → Except ε (List β)
  | [] => .ok []
  | a :: rest =>
    match f a with
    | .error e => .error e
    | .ok b =>
      match exceptMapM f rest with
      | .error e => .error e
      | .ok bs => .ok (b :: bs)

/-- String helper: Boolean list-prefix test (no library dependence). -/
def isPreList : List Char → List Char → Bool
  | [], _ => true
  | _ :: _, [] => false
  | a :: as_, b :: bs => a = b && isPreList as_ bs

/-- `str::starts_with` on strings. -/
def starts_with (s pre : String) : Bool := isPreList pre.data s.data

/-- Substring containment on char lists, modelling `str::contains`. -/
def subList (needle : List Char) : List Char → Bool
  | [] => isPreList needle []
  | c :: rest => isPreList needle (c :: rest) || subList needle rest

/-- `str::contains` with a string pattern. -/
def strContains (hay needle : String) : Bool := subList needle.data hay.data

/-- Split a char list at the first occurrence of `c`, modelling
`str::splitn(2, c)` when it yields two pieces (`none` when `c` is absent). -/
def splitFirst (c : Char) : List Char → Option (List Char × List Char)
  | [] => none
  | x :: xs =>
    if x = c then some ([], xs)
    else (splitFirst c xs).map (fun p => (x :: p.1, p.2))

/-- `str::strip_prefix` on char lists. -/
def stripPreList : List Char → List Char → Option (List Char)
  | [], s => some s
  | _ :: _, [] => none
  | p :: ps, x :: xs => if p = x then stripPreList ps xs else none

/-- `str::strip_suffix` on char lists, via the reversed prefix strip. -/
def stripSufList (suf s : List Char) : Option (List Char) :=
  (stripPreList suf.reverse s.reverse).map List.reverse

/-- Anthropic usage statistics (`src/providers/anthropic/types.rs`). -/
structure AnthropicUsage where
  input_tokens : Nat
  output_tokens : Nat

/-- Anthropic content block (`AnthropicContent`). -/
structure AnthropicContent where
  type_ : String
  text : Option String
  thinking : Option String
  id : Option String
  name : Option String
  input : Option Json

/-- Anthropic non-streaming response (`AnthropicResponse`). -/
structure AnthropicResponse where
  id : String
  type_ : String
  role : String
  content : List AnthropicContent
  model : String
  stop_reason : Option String
  usage : AnthropicUsage

/-- Anthropic streaming delta payload (`AnthropicDelta`). -/
structure AnthropicDelta where
  type_ : String
  text : Option String
  thinking : Option String
  partial_json : Option String

/-- Anthropic streaming event frame (`AnthropicStreamEvent`). -/
structure AnthropicStreamEvent where
  type_ : String
  message : Option AnthropicResponse
  index : Option Nat
  content_block : Option AnthropicContent
  delta : Option AnthropicDelta
  usage : Option AnthropicUsage

/-- Anthropic wire message (`AnthropicMessage`). -/
structure AnthropicMessage where
  role : String
  content : Json

/-- Anthropic wire request (`AnthropicRequest`); `thinking` is its own type in
the source but is always set to `None` by the translator, so it is modelled as
an always-`none` option. -/
structure AnthropicRequest where
  model : String
  messages : List AnthropicMessage
  max_tokens : Nat
  system : Option String
  temperature : Option Rat
  top_p : Option Rat
  stop_sequences : Option (List String)
  stream : Option Bool
  thinking : Option Unit
  tools : Option (List Json)
  tool_choice : Option Json

/-- `infer_max_tokens` (`src/providers/anthropic/types.rs`): tiered default for
the required `max_tokens` field, keyed on substrings of the model name. -/
def infer_max_tokens (model : String) : Nat :=
  if strContains model "opus-4-5" || strContains model "sonnet-4" ||
      strContains model "haiku-4" then
    64000
  else if strContains model "opus-4" then
    32000
  else if strContains model "3-5" then
    8192
  else
    4096

/-- `parse_image_source` (`src/providers/anthropic/convert.rs`): parse an image
URL into the Anthropic base64 source object; bare remote URLs are rejected. -/
def parse_image_source (url : String) : Except Error Json :=
  if starts_with url "data:" then
    match splitFirst ',' url.data with
    | none => .error (.invalidResponse "Invalid data URL format")
    | some (head, tail) =>
      match (stripPreList "data:".data head).bind (stripSufList ";base64".data) with
      | none => .error (.invalidResponse "Invalid data URL media type")
      | some mt =>
        .ok (.obj [("type", .str "base64"), ("media_type", .str (String.mk mt)),
          ("data", .str (String.mk tail))])
  else
    .error (.invalidResponse "Anthropic requires base64-encoded images, not URLs")

/-- The Anthropic wire JSON for one content part in the multi-part (array) case
of `to_anthropic_message`. -/
def anthropic_part_json : ContentPart → Except Error Json
  | .text t => .ok (.obj [("type", .str "text"), ("text", .str t)])
  | .image url _ => do
    let src ← parse_image_source url
    .ok (.obj [("type", .str "image"), ("source", src)])
  | .toolCall id name arguments =>
    .ok (.obj [("type", .str "tool_use"), ("id", .str id), ("name", .str name),
      ("input", arguments)])
  | .toolResult tool_call_id content =>
    .ok (.obj [("type", .str "tool_result"), ("tool_use_id", .str tool_call_id),
      ("content", content)])

/-- The Anthropic wire content of a message's parts: a single text part becomes
a bare string, a single non-text part a one-element array, multiple (or zero)
parts an array. -/
def anthropic_content_json (parts : List ContentPart) : Except Error Json :=
  match parts with
  | [ContentPart.text t] => .ok (.str t)
  | [p] =>
    match anthropic_part_json p with
    | .ok j => .ok (.arr [j])
    | .error e => .error e
  | ps =>
    match exceptMapM anthropic_part_json ps with
    | .ok js => .ok (.arr js)
    | .error e => .error e

/-- `to_anthropic_message`: role mapping (system and tool roles are rejected)
plus content formatting via `anthropic_content_json`. -/
def to_anthropic_message (msg : Message) : Except Error AnthropicMessage :=
  match msg.role with
  | .user =>
    match anthropic_content_json msg.partsOf with
    | .ok c => .ok ⟨"user", c⟩
    | .error e => .error e
  | .assistant =>
    match anthropic_content_json msg.partsOf with
    | .ok c => .ok ⟨"assistant", c⟩
    | .error e => .error e
  | .system => .error (.invalidResponse "System messages should be filtered out")
  | .tool => .error (.invalidResponse "Tool messages not yet supported for Anthropic")

/-- The system texts a request contributes: its system-role messages' texts, in
order (messages whose content has no text contribute nothing). -/
def system_texts (req : GenerateRequest) : List String :=
  (req.messages.filter (fun m => m.role = Role.system)).filterMap Message.text

/-- `to_anthropic_request` (`src/providers/anthropic/convert.rs`): extract and
join system messages, convert the rest, default `max_tokens`, and translate
tool schemas and tool choice. -/
def to_anthropic_request (req : GenerateRequest) (stream : Bool) :
    Except Error AnthropicRequest :=
  let system := if (system_texts req).isEmpty then none
    else some (String.intercalate "\n\n" (system_texts req))
  match exceptMapM to_anthropic_message
      (req.messages.filter (fun m => ¬(m.role = Role.system))) with
  | .error e => .error e
  | .ok messages =>
    let max_tokens := req.options.max_tokens.getD (infer_max_tokens req.model)
    let tools := req.options.tools.map (fun ts => ts.map (fun tool =>
      Json.obj [("name", .str tool.function.name),
        ("description", .str tool.function.description),
        ("input_schema", tool.function.parameters)]))
    let tool_choice := req.options.tool_choice.map (fun choice =>
      match choice with
      | .auto => Json.obj [("type", .str "auto")]
      | .none => Json.obj [("type", .str "none")]
      | .required name => Json.obj [("type", .str "tool"), ("name", .str name)])
    .ok ⟨req.model, messages, max_tokens, system, req.options.temperature,
      req.options.top_p, req.options.stop_sequences,
      (if stream then some true else none), none, tools, tool_choice⟩

/-- The content items `from_anthropic_response` extracts, in order: text,
thinking (bracket-wrapped), and tool-use blocks; unknown types are dropped. -/
def anthropic_response_content (blocks : List AnthropicContent) : List ResponseContent :=
  blocks.filterMap (fun c =>
    match c.type_ with
    | "text" => c.text.map (fun t => ResponseContent.text t)
    | "thinking" => c.thinking.map (fun t =>
        ResponseContent.text ("[Thinking: " ++ t ++ "]"))
    | "tool_use" => some (ResponseContent.toolCall
        ⟨c.id.getD "", c.name.getD "", c.input.getD (Json.obj [])⟩)
    | _ => none)

/-- `parse_stop_reason`: map Anthropic stop-reason strings. -/
def parse_stop_reason (reason : Option String) : Option FinishReason :=
  reason.bind (fun r =>
    match r with
    | "end_turn" => some .stop
    | "max_tokens" => some .length
    | "stop_sequence" => some .stop
    | _ => none)

/-- `from_anthropic_response`: extract content, reject empty content, and apply
the tool-calls finish-reason override. -/
def from_anthropic_response (resp : AnthropicResponse) : Except Error GenerateResponse :=
  let content := anthropic_response_content resp.content
  if content.isEmpty then
    .error (.invalidResponse "No content in response")
  else
    let finish_reason := if content.any ResponseContent.isToolCall then
      FinishReason.toolCalls
    else
      (parse_stop_reason resp.stop_reason).getD .other
    .ok ⟨content,
      ⟨resp.usage.input_tokens, resp.usage.output_tokens,
        resp.usage.input_tokens + resp.usage.output_tokens⟩,
      finish_reason,
      some (.obj [("id", .str resp.id), ("model", .str resp.model)])⟩

/-- `process_anthropic_event` (`src/providers/anthropic/stream.rs`): the
per-frame transition of the Anthropic streaming normalizer.  Note that the
`input_json_delta` arm reads the frame's `text` field, exactly as the source
does (`if let Some(partial_json) = delta.text`). -/
def process_anthropic_event (event : AnthropicStreamEvent) (acc : Usage) :
    Usage × Option StreamEvent :=
  match event.type_ with
  | "message_start" =>
    match event.message with
    | some m => ({ acc with prompt_tokens := m.usage.input_tokens }, none)
    | none => (acc, none)
  | "content_block_start" =>
    (acc,
     match event.content_block with
     | some block =>
       if block.type_ = "tool_use" then
         some (.toolCallStart (block.id.getD "") (block.name.getD ""))
       else none
     | none => none)
  | "content_block_delta" =>
    (acc,
     match event.delta with
     | some delta =>
       match delta.type_ with
       | "text_delta" => delta.text.map (fun t => StreamEvent.textDelta "" t)
       | "thinking_delta" => delta.thinking.map (fun t =>
           StreamEvent.textDelta "" ("[Thinking: " ++ t ++ "]"))
       | "input_json_delta" => delta.text.map (fun pj =>
           StreamEvent.toolCallDelta (toString (event.index.getD 0)) pj)
       | _ => none
     | none => none)
  | "content_block_stop" => (acc, none)
  | "message_delta" =>
    match event.usage with
    | some u =>
      ({ acc with
          completion_tokens := u.output_tokens,
          total_tokens := acc.prompt_tokens + u.output_tokens }, none)
    | none => (acc, none)
  | "message_stop" => (acc, some (.finish acc .stop))
  | "error" => (acc, some (.error "Anthropic API error"))
  | _ => (acc, none)

/-- One frame of the already-framed Anthropic SSE input: the `[DONE]` sentinel,
a data payload (parsed frame or a parse failure), or a transport error. -/
inductive AnthropicFrame where
  | done : AnthropicFrame
  | msg (parsed : Except String AnthropicStreamEvent) : AnthropicFrame
  | transportErr (msg : String) : AnthropicFrame

/-- The Anthropic `create_stream` consumption loop over framed input: `[DONE]`
stops, parse failures and transport errors yield an `Err` item and stop,
frames map through `process_anthropic_event`. -/
def anthropic_stream_run (acc : Usage) :
    List AnthropicFrame → List (Except Error StreamEvent)
  | [] => []
  | .done :: _ => []
  | .msg (.error e) :: _ =>
    [.error (.streamError ("Failed to parse event: " ++ e))]
  | .msg (.ok event) :: rest =>
    let (acc', ev) := process_anthropic_event event acc
    (match ev with
     | some e => [Except.ok e]
     | none => []) ++ anthropic_stream_run acc' rest
  | .transportErr m :: _ => [.error (.streamError ("Stream error: " ++ m))]

/-- The whole Anthropic normalizer over a framed input sequence. -/
def create_anthropic_stream (frames : List AnthropicFrame) :
    List (Except Error StreamEvent) :=
  anthropic_stream_run Usage.zero frames

/-- OpenAI usage statistics (`src/providers/openai/types.rs`, `ChatUsage`). -/
structure ChatUsage where
  prompt_tokens : Nat
  completion_tokens : Nat
  total_tokens : Nat

/-- OpenAI function call (`OpenAIFunctionCall`): arguments are a JSON string. -/
structure OpenAIFunctionCall where
  name : String
  arguments : String

/-- OpenAI tool call (`OpenAIToolCall`). -/
structure OpenAIToolCall where
  id : String
  type_ : String
  function : OpenAIFunctionCall

/-- OpenAI chat message (`ChatMessage`). -/
structure ChatMessage where
  role : String
  content : Option Json
  name : Option String
  tool_calls : Option (List OpenAIToolCall)
  tool_call_id : Option String

/-- OpenAI chat choice (`ChatChoice`). -/
structure ChatChoice where
  index : Nat
  message : ChatMessage
  finish_reason : Option String

/-- OpenAI chat completion response (`ChatCompletionResponse`). -/
structure ChatCompletionResponse where
  id : String
  object : String
  created : Nat
  model : String
  choices : List ChatChoice
  usage : ChatUsage

/-- OpenAI streaming function-call fragment (`OpenAIFunctionCallDelta`). -/
structure OpenAIFunctionCallDelta where
  name : Option String
  arguments : Option String

/-- OpenAI streaming tool-call fragment (`OpenAIToolCallDelta`). -/
structure OpenAIToolCallDelta where
  index : Nat
  id : Option String
  type_ : Option String
  function : Option OpenAIFunctionCallDelta

/-- OpenAI streaming delta (`ChatDelta`). -/
structure ChatDelta where
  role : Option String
  content : Option String
  tool_calls : Option (List OpenAIToolCallDelta)

/-- OpenAI streaming chunk choice (`ChunkChoice`). -/
structure ChunkChoice where
  index : Nat
  delta : ChatDelta
  finish_reason : Option String

/-- OpenAI streaming chunk (`ChatCompletionChunk`). -/
structure ChatCompletionChunk where
  id : String
  object : String
  created : Nat
  model : String
  choices : List ChunkChoice
  usage : Option ChatUsage

/-- The finish-reason string mapping shared by the OpenAI response parser and
streaming normalizer (`stop`, `length`, `content_filter`, `tool_calls`,
anything else including absence maps to `Other`). -/
def openai_map_finish : Option String → FinishReason
  | some "stop" => .stop
  | some "length" => .length
  | some "content_filter" => .contentFilter
  | some "tool_calls" => .toolCalls
  | _ => .other

/-- `parse_message_content` (`src/providers/openai/convert.rs`): non-empty
string content becomes one text item, then every wire tool call is appended.
`parseArgs` abstracts `serde_json::from_str` on the arguments string; a parse
failure falls back to the empty JSON object. -/
def parse_message_content (parseArgs : String → Option Json) (msg : ChatMessage) :
    List ResponseContent :=
  (match msg.content with
   | some v =>
     match v.asStr with
     | some text => if ¬(text = "") then [ResponseContent.text text] else []
     | none => []
   | none => []) ++
  (match msg.tool_calls with
   | some tcs => tcs.map (fun tc => ResponseContent.toolCall
       ⟨tc.id, tc.function.name, (parseArgs tc.function.arguments).getD (Json.obj [])⟩)
   | none => [])

/-- `from_openai_response`: take the first choice (error when there is none),
extract content, and map the vendor finish_reason string directly. -/
def from_openai_response (parseArgs : String → Option Json)
    (resp : ChatCompletionResponse) : Except Error GenerateResponse :=
  match resp.choices.head? with
  | none => .error (.invalidResponse "No choices in response")
  | some choice =>
    let content := parse_message_content parseArgs choice.message
    let finish_reason := openai_map_finish choice.finish_reason
    .ok ⟨content,
      ⟨resp.usage.prompt_tokens, resp.usage.completion_tokens, resp.usage.total_tokens⟩,
      finish_reason,
      some (.obj [("id", .str resp.id), ("model", .str resp.model),
        ("created", .num resp.created)])⟩

/-- The first tool-call event of a chunk's tool-call fragment list: a fragment
with a function name signals `ToolCallStart`, else one with only arguments
signals `ToolCallDelta` (`parse_chunk`'s `for tc in tool_calls` loop). -/
def openai_first_tool_event : List OpenAIToolCallDelta → Option StreamEvent
  | [] => none
  | tc :: rest =>
    match tc.function with
    | none => openai_first_tool_event rest
    | some f =>
      match f.name with
      | some n => some (.toolCallStart (tc.id.getD "") n)
      | none =>
        match f.arguments with
        | some args => some (.toolCallDelta (tc.id.getD "") args)
        | none => openai_first_tool_event rest

/-- The usage-capture step at the head of `parse_chunk`: usage present on the
chunk overwrites the accumulator. -/
def openai_capture_usage (chunk : ChatCompletionChunk) (acc : Option Usage) :
    Option Usage :=
  match chunk.usage with
  | some u => some ⟨u.prompt_tokens, u.completion_tokens, u.total_tokens⟩
  | none => acc

/-- `parse_chunk` (`src/providers/openai/stream.rs`) on an already-parsed chunk:
capture usage, then emit at most one event with priority
finish > tool-call > text > start. -/
def parse_chunk (chunk : ChatCompletionChunk) (acc : Option Usage) :
    Option Usage × Option StreamEvent :=
  let acc := openai_capture_usage chunk acc
  match chunk.choices.head? with
  | none => (acc, none)
  | some choice =>
    match choice.finish_reason with
    | some reason =>
      (acc, some (.finish (acc.getD Usage.zero) (openai_map_finish (some reason))))
    | none =>
      match choice.delta.tool_calls.bind openai_first_tool_event with
      | some ev => (acc, some ev)
      | none =>
        match choice.delta.content with
        | some content => (acc, some (.textDelta chunk.id content))
        | none =>
          if choice.delta.role.isSome then (acc, some (.start chunk.id))
          else (acc, none)

/-- One frame of the OpenAI SSE input: the `[DONE]` sentinel, a data payload
(parsed chunk or a parse failure), or a transport error. -/
inductive OpenAIFrame where
  | done : OpenAIFrame
  | msg (parsed : Except String ChatCompletionChunk) : OpenAIFrame
  | transportErr (msg : String) : OpenAIFrame

/-- The OpenAI `create_stream` consumption loop: `[DONE]` stops; a chunk parse
failure yields an `Err` item but the loop continues; a transport error yields
an `Err` item and stops. -/
def openai_stream_run (acc : Option Usage) :
    List OpenAIFrame → List (Except Error StreamEvent)
  | [] => []
  | .done :: _ => []
  | .msg (.error e) :: rest =>
    .error (.invalidResponse ("Failed to parse chunk: " ++ e)) ::
      openai_stream_run acc rest
  | .msg (.ok chunk) :: rest =>
    let (acc', ev) := parse_chunk chunk acc
    (match ev with
     | some e => [Except.ok e]
     | none => []) ++ openai_stream_run acc' rest
  | .transportErr m :: _ => [.error (.streamError ("Stream error: " ++ m))]

/-- The whole OpenAI normalizer over a framed input sequence. -/
def create_openai_stream (frames : List OpenAIFrame) :
    List (Except Error StreamEvent) :=
  openai_stream_run none frames

/-- Gemini function call (`src/providers/gemini/types.rs`, `GeminiFunctionCall`). -/
structure GeminiFunctionCall where
  name : String
  args : Json

/-- Gemini function response (`GeminiFunctionResponse`). -/
structure GeminiFunctionResponse where
  name : String
  response : Json

/-- Gemini inline image data (`GeminiInlineData`). -/
structure GeminiInlineData where
  mime_type : String
  data : String
deriving DecidableEq

/-- Gemini content part (`GeminiPart`). -/
structure GeminiPart where
  text : Option String
  inline_data : Option GeminiInlineData
  function_call : Option GeminiFunctionCall
  function_response : Option GeminiFunctionResponse

/-- Gemini content (`GeminiContent`). -/
structure GeminiContent where
  role : String
  parts : List GeminiPart

/-- Gemini usage metadata (`GeminiUsageMetadata`). -/
structure GeminiUsageMetadata where
  prompt_token_count : Option Nat
  candidates_token_count : Option Nat
  total_token_count : Option Nat

/-- Gemini candidate (`GeminiCandidate`); safety ratings are opaque here. -/
structure GeminiCandidate where
  content : GeminiContent
  finish_reason : Option String
  safety_ratings : Option (List (String × String))

/-- Gemini response (`GeminiResponse`). -/
structure GeminiResponse where
  candidates : List GeminiCandidate
  usage_metadata : Option GeminiUsageMetadata

/-- `parse_image_data` (`src/providers/gemini/convert.rs`): parse an image URL
into Gemini inline data; bare remote URLs are rejected. -/
def parse_image_data (url : String) : Except Error GeminiInlineData :=
  if starts_with url "data:" then
    match splitFirst ',' url.data with
    | none => .error (.invalidResponse "Invalid data URL format")
    | some (head, tail) =>
      match (stripPreList "data:".data head).bind (stripSufList ";base64".data) with
      | none => .error (.invalidResponse "Invalid data URL media type")
      | some mt => .ok ⟨String.mk mt, String.mk tail⟩
  else
    .error (.invalidResponse "Gemini requires base64-encoded images, not URLs")

/-- The Gemini wire part for one unified content part (the closure in
`to_gemini_content`).  An image whose URL fails to parse is replaced by a
bracketed text placeholder rather than an error. -/
def gemini_part_of (part : ContentPart) : GeminiPart :=
  match part with
  | .text t => ⟨some t, none, none, none⟩
  | .image url _ =>
    match parse_image_data url with
    | .ok inline_data => ⟨none, some inline_data, none, none⟩
    | .error _ => ⟨some ("[Image: " ++ url ++ "]"), none, none, none⟩
  | .toolCall _ name arguments => ⟨none, none, some ⟨name, arguments⟩, none⟩
  | .toolResult _ content =>
    let nr : String × Json :=
      match content with
      | .obj fields =>
        (match (jlookup "name" fields).bind Json.asStr with
         | some n => n
         | none => "unknown",
         match jlookup "result" fields with
         | some r => r
         | none => content)
      | _ => ("unknown", content)
    ⟨none, none, none, some ⟨nr.1, nr.2⟩⟩

/-- `to_gemini_content`: role mapping (assistant becomes `model`; tool messages
are rejected) plus per-part conversion. -/
def to_gemini_content (msg : Message) : Except Error GeminiContent :=
  match msg.role with
  | .tool => .error (.invalidResponse "Tool messages not yet supported for Gemini")
  | .assistant => .ok ⟨"model", msg.partsOf.map gemini_part_of⟩
  | _ => .ok ⟨"user", msg.partsOf.map gemini_part_of⟩

/-- The response content items `from_gemini_response` collects: per part, a text
item for a present text field and a tool call for a present function call, in
order.  `fresh k` abstracts the `k`-th generated UUID. -/
def gemini_response_content (fresh : Nat → String) : Nat → List GeminiPart → List ResponseContent
  | _, [] => []
  | k, p :: rest =>
    (match p.text with
     | some t => [ResponseContent.text t]
     | none => []) ++
    (match p.function_call with
     | some fc =>
       ResponseContent.toolCall ⟨"call_" ++ fresh k, fc.name, fc.args⟩ ::
         gemini_response_content fresh (k + 1) rest
     | none => gemini_response_content fresh k rest)

/-- `parse_finish_reason` (`src/providers/gemini/convert.rs`). -/
def parse_finish_reason (reason : Option String) : Option FinishReason :=
  reason.bind (fun r =>
    match r with
    | "STOP" => some .stop
    | "MAX_TOKENS" => some .length
    | "SAFETY" => some .contentFilter
    | _ => none)

/-- `from_gemini_response`: take the first candidate (error when there is
none), collect content, reject empty content, map usage, and apply the
tool-calls finish-reason override. -/
def from_gemini_response (fresh : Nat → String) (resp : GeminiResponse) :
    Except Error GenerateResponse :=
  match resp.candidates.head? with
  | none => .error (.invalidResponse "No candidates in response")
  | some candidate =>
    let content := gemini_response_content fresh 0 candidate.content.parts
    if content.isEmpty then
      .error (.invalidResponse "No content in response")
    else
      let usage := match resp.usage_metadata with
        | some u => (⟨u.prompt_token_count.getD 0, u.candidates_token_count.getD 0,
            u.total_token_count.getD 0⟩ : Usage)
        | none => Usage.zero
      let finish_reason := if content.any ResponseContent.isToolCall then
        FinishReason.toolCalls
      else
        (parse_finish_reason candidate.finish_reason).getD .other
      .ok ⟨content, usage, finish_reason, none⟩

/-- Gemini streaming-normalizer state: the accumulated usage, the lazily
assigned stream id (empty until assigned), and the count of generated call ids
(abstracting UUID generation). -/
structure GeminiStreamState where
  usage : Usage
  streamId : String
  calls : Nat

/-- The Gemini finish-reason string mapping of the streaming normalizer
(unlike the non-streaming `parse_finish_reason`, unknown strings map to
`Other`). -/
def gemini_stream_map_finish (reason : String) : FinishReason :=
  match reason with
  | "STOP" => .stop
  | "MAX_TOKENS" => .length
  | "SAFETY" => .contentFilter
  | _ => .other

/-- The first event of a parsed line's part list (`process_gemini_response`'s
`for part in parts` loop): a non-empty text field emits `TextDelta`, else a
function call emits `ToolCallEnd` with a generated id. -/
def gemini_first_part_event (fresh : Nat → String) (st : GeminiStreamState) :
    List GeminiPart → Option (GeminiStreamState × StreamEvent)
  | [] => none
  | p :: rest =>
    let textHit : Option StreamEvent :=
      match p.text with
      | some t => if ¬(t = "") then some (.textDelta st.streamId t) else none
      | none => none
    match textHit with
    | some ev => some (st, ev)
    | none =>
      match p.function_call with
      | some fc =>
        some ({ st with calls := st.calls + 1 },
          .toolCallEnd ("call_" ++ fresh st.calls) fc.name fc.args)
      | none => gemini_first_part_event fresh st rest

/-- `process_gemini_response` (`src/providers/gemini/stream.rs`): update usage
(last write wins), assign the stream id on first candidate, then emit at most
one event: first matching part, else a mapped `Finish` when the candidate
carries a finish reason.  `genId` abstracts the wall-clock-derived stream id. -/
def process_gemini_response (fresh : Nat → String) (genId : String)
    (resp : GeminiResponse) (st : GeminiStreamState) :
    GeminiStreamState × Option StreamEvent :=
  let st := match resp.usage_metadata with
    | some u =>
      { st with usage := ⟨u.prompt_token_count.getD 0, u.candidates_token_count.getD 0,
          u.total_token_count.getD 0⟩ }
    | none => st
  match resp.candidates.head? with
  | none => (st, none)
  | some candidate =>
    let st := if st.streamId = "" then { st with streamId := genId } else st
    match gemini_first_part_event fresh st candidate.content.parts with
    | some (st', ev) => (st', some ev)
    | none =>
      match candidate.finish_reason with
      | some reason =>
        (st, some (.finish st.usage (gemini_stream_map_finish reason)))
      | none => (st, none)

/-- One line of the newline-split Gemini byte stream, already parsed or a parse
failure (empty lines are skipped before this point). -/
inductive GeminiLine where
  | ok (resp : GeminiResponse) : GeminiLine
  | parseErr (msg : String) : GeminiLine

/-- One network read of the Gemini byte stream: the complete lines it
completes, or a transport error. -/
inductive GeminiChunk where
  | ok (lines : List GeminiLine) : GeminiChunk
  | transportErr (msg : String) : GeminiChunk

/-- The inner per-chunk line loop of the Gemini `create_stream`: a parse
failure yields an `Err` item and abandons the rest of this chunk's lines only. -/
def gemini_run_lines (fresh : Nat → String) (genId : String)
    (st : GeminiStreamState) :
    List GeminiLine → GeminiStreamState × List (Except Error StreamEvent)
  | [] => (st, [])
  | .parseErr m :: _ => (st, [.error (.streamError ("Failed to parse JSON: " ++ m))])
  | .ok resp :: rest =>
    let (st', ev) := process_gemini_response fresh genId resp st
    let (st'', evs) := gemini_run_lines fresh genId st' rest
    (st'',
      (match ev with
       | some e => [Except.ok e]
       | none => []) ++ evs)

/-- The outer chunk loop of the Gemini `create_stream`: a transport error
yields an `Err` item and stops consuming chunks. -/
def gemini_run_chunks (fresh : Nat → String) (genId : String)
    (st : GeminiStreamState) :
    List GeminiChunk → GeminiStreamState × List (Except Error StreamEvent)
  | [] => (st, [])
  | .transportErr m :: _ => (st, [.error (.streamError ("Stream error: " ++ m))])
  | .ok lines :: rest =>
    let (st', evs) := gemini_run_lines fresh genId st lines
    let (st'', evs') := gemini_run_chunks fresh genId st' rest
    (st'', evs ++ evs')

/-- The whole Gemini normalizer (`create_stream`): run the chunk loop, then —
whatever happened before — append a synthesized `Finish{Stop}` whenever the
accumulated usage total is non-zero. -/
def create_gemini_stream (fresh : Nat → String) (genId : String)
    (chunks : List GeminiChunk) : List (Except Error StreamEvent) :=
  let (st, evs) := gemini_run_chunks fresh genId ⟨Usage.zero, "", 0⟩ chunks
  evs ++ (if st.usage.total_tokens > 0 then [.ok (.finish st.usage .stop)] else [])

/-- The serialized image-detail strings (`ImageDetail`'s lowercase serde names). -/
def image_detail_str : ImageDetail → String
  | .low => "low"
  | .high => "high"
  | .auto => "auto"

/-- Serde serialization of one content part: a `type`-tagged (snake-case)
object with the variant's fields in declaration order; an absent `detail` is
skipped. -/
def serialize_content_part : ContentPart → Json
  | .text t => .obj [("type", .str "text"), ("text", .str t)]
  | .image url detail =>
    .obj ([("type", .str "image"), ("url", .str url)] ++
      (match detail with
       | some d => [("detail", .str (image_detail_str d))]
       | none => []))
  | .toolCall id name arguments =>
    .obj [("type", .str "tool_call"), ("id", .str id), ("name", .str name),
      ("arguments", arguments)]
  | .toolResult tool_call_id content =>
    .obj [("type", .str "tool_result"), ("tool_call_id", .str tool_call_id),
      ("content", content)]

/-- Serde deserialization of one content part from its tagged-object shape. -/
def deserialize_content_part (j : Json) : Except String ContentPart :=
  match j with
  | .obj fields =>
    match jlookup "type" fields with
    | some (.str "text") =>
      match (jlookup "text" fields).bind Json.asStr with
      | some t => .ok (.text t)
      | none => .error "missing field text"
    | some (.str "image") =>
      match (jlookup "url" fields).bind Json.asStr with
      | some url =>
        match jlookup "detail" fields with
        | none => .ok (.image url none)
        | some (.str "low") => .ok (.image url (some .low))
        | some (.str "high") => .ok (.image url (some .high))
        | some (.str "auto") => .ok (.image url (some .auto))
        | some _ => .error "unknown variant of ImageDetail"
      | none => .error "missing field url"
    | some (.str "tool_call") =>
      match (jlookup "id" fields).bind Json.asStr,
          (jlookup "name" fields).bind Json.asStr, jlookup "arguments" fields with
      | some id, some name, some arguments => .ok (.toolCall id name arguments)
      | _, _, _ => .error "missing fields of tool_call"
    | some (.str "tool_result") =>
      match (jlookup "tool_call_id" fields).bind Json.asStr,
          jlookup "content" fields with
      | some tool_call_id, some content => .ok (.toolResult tool_call_id content)
      | _, _ => .error "missing fields of tool_result"
    | _ => .error "missing or unknown type tag"
  | _ => .error "expected an object"

/-- `content_serde::serialize` (`src/types/message.rs`): the text variant
serializes as a bare string, the parts variant as an array of tagged objects. -/
def serialize_message_content : MessageContent → Json
  | .text t => .str t
  | .parts ps => .arr (ps.map serialize_content_part)

/-- `content_serde::deserialize`: a JSON string yields the text variant, a JSON
array yields the parts variant (failing if an element fails), anything else is
an error. -/
def deserialize_message_content (j : Json) : Except String MessageContent :=
  match j with
  | .str s => .ok (.text s)
  | .arr elems =>
    match exceptMapM deserialize_content_part elems with
    | .ok ps => .ok (.parts ps)
    | .error e => .error ("Invalid content parts: " ++ e)
  | _ => .error "Content must be a string or array"

theorem isPreList_append (p r : List Char) : isPreList p (p ++ r) = true := by
  induction p with
  | nil => rfl
  | cons a as_ ih => simp [isPreList, ih]

theorem splitFirst_append {c : Char} {l₁ : List Char} (l₂ : List Char)
    (h : c ∉ l₁) : splitFirst c (l₁ ++ c :: l₂) = some (l₁, l₂) := by
  induction l₁ with
  | nil => simp [splitFirst]
  | cons x xs ih =>
    have hx : ¬(x = c) := fun hxc => h (by simp [hxc])
    have hxs : c ∉ xs := fun hmem => h (by simp [hmem])
    simp [splitFirst, hx, ih hxs]

theorem stripPreList_append (p r : List Char) : stripPreList p (p ++ r) = some r := by
  induction p with
  | nil => rfl
  | cons a as_ ih => simp [stripPreList, ih]

theorem stripSufList_append (suf m : List Char) : stripSufList suf (m ++ suf) = some m := by
  simp [stripSufList, List.reverse_append, stripPreList_append]

theorem string_mk_data (s : String) : String.mk s.data = s := rfl

theorem string_data_append (a b : String) : (a ++ b).data = a.data ++ b.data :=
  String.data_append a b

theorem dataurl_chars (mime payload : String) :
    ("data:" ++ mime ++ ";base64," ++ payload).data =
      ("data:".data ++ (mime.data ++ ";base64".data)) ++ ',' :: payload.data := by
  have h64 : ";base64,".data = ";base64".data ++ [','] := by decide
  simp [string_data_append, h64]

theorem dataurl_no_comma {mime : String} (hm : ¬(',' ∈ mime.data)) :
    ¬(',' ∈ "data:".data ++ (mime.data ++ ";base64".data)) := by
  intro h
  rcases List.mem_append.mp h with h1 | h2
  · exact absurd h1 (by decide)
  · rcases List.mem_append.mp h2 with h3 | h4
    · exact hm h3
    · exact absurd h4 (by decide)

theorem dataurl_starts (mime payload : String) :
    starts_with ("data:" ++ mime ++ ";base64," ++ payload) "data:" = true := by
  have h := dataurl_chars mime payload
  unfold starts_with
  rw [h, List.append_assoc]
  exact isPreList_append _ _

theorem parse_image_source_dataurl (mime payload : String)
    (hm : ¬(',' ∈ mime.data)) :
    parse_image_source ("data:" ++ mime ++ ";base64," ++ payload) =
      .ok (.obj [("type", .str "base64"), ("media_type", .str mime),
        ("data", .str payload)]) := by
  have hsplit : splitFirst ',' ("data:" ++ mime ++ ";base64," ++ payload).data =
      some ("data:".data ++ (mime.data ++ ";base64".data), payload.data) := by
    rw [dataurl_chars]
    exact splitFirst_append _ (dataurl_no_comma hm)
  have hstrip : stripPreList "data:".data
      ("data:".data ++ (mime.data ++ ";base64".data)) =
      some (mime.data ++ ";base64".data) := stripPreList_append _ _
  simp only [parse_image_source, dataurl_starts, if_true, hsplit, hstrip,
    Option.bind_some, Option.some_bind, stripSufList_append, string_mk_data]

theorem parse_image_data_dataurl (mime payload : String)
    (hm : ¬(',' ∈ mime.data)) :
    parse_image_data ("data:" ++ mime ++ ";base64," ++ payload) =
      .ok ⟨mime, payload⟩ := by
  have hsplit : splitFirst ',' ("data:" ++ mime ++ ";base64," ++ payload).data =
      some ("data:".data ++ (mime.data ++ ";base64".data), payload.data) := by
    rw [dataurl_chars]
    exact splitFirst_append _ (dataurl_no_comma hm)
  have hstrip : stripPreList "data:".data
      ("data:".data ++ (mime.data ++ ";base64".data)) =
      some (mime.data ++ ";base64".data) := stripPreList_append _ _
  simp only [parse_image_data, dataurl_starts, if_true, hsplit, hstrip,
    Option.bind_some, Option.some_bind, stripSufList_append, string_mk_data]

theorem exceptMapM_length {α β ε : Type} (f : α → Except ε β) :
    ∀ (l : List α) (out : List β), exceptMapM f l = Except.ok out →
      out.length = l.length := by
  intro l
  induction l with
  | nil =>
    intro out h
    cases h
    rfl
  | cons a rest ih =>
    intro out h
    unfold exceptMapM at h
    cases hfa : f a with
    | error e => rw [hfa] at h; cases h
    | ok b =>
      rw [hfa] at h
      cases hrest : exceptMapM f rest with
      | error e => rw [hrest] at h; cases h
      | ok bs =>
        rw [hrest] at h
        cases h
        simp [ih bs hrest]

theorem exceptMapM_forall {α β ε : Type} (f : α → Except ε β) (p : β → Prop)
    (hf : ∀ a b, f a = Except.ok b → p b) :
    ∀ (l : List α) (out : List β), exceptMapM f l = Except.ok out →
      ∀ b ∈ out, p b := by
  intro l
  induction l with
  | nil =>
    intro out h
    cases h
    intro b hb
    cases hb
  | cons a rest ih =>
    intro out h
    unfold exceptMapM at h
    cases hfa : f a with
    | error e => rw [hfa] at h; cases h
    | ok b =>
      rw [hfa] at h
      cases hrest : exceptMapM f rest with
      | error e => rw [hrest] at h; cases h
      | ok bs =>
        rw [hrest] at h
        cases h
        intro x hx
        rcases List.mem_cons.mp hx with h1 | h2
        · exact h1 ▸ hf a b hfa
        · exact ih bs hrest x h2

/-- C3: the claim says a `content_block_delta` frame whose delta has type
`input_json_delta` and carries a partial-JSON fragment emits a
`ToolCallDelta` keyed by the stringified block index.  The code reads the
delta's `text` field instead of its `partial_json` field, so a genuine wire
frame (fragment in `partial_json`, no `text`) emits nothing, while the
fragment is emitted only if it arrives in the `text` field, which the vendor
never populates for `input_json_delta`. -/
theorem anthropic_input_json_delta_dropped :
    (process_anthropic_event
      ⟨"content_block_delta", none, some 1, none,
        some ⟨"input_json_delta", none, none, some "42"⟩, none⟩ Usage.zero).2 = none
    ∧ (process_anthropic_event
      ⟨"content_block_delta", none, some 1, none,
        some ⟨"input_json_delta", some "42", none, none⟩, none⟩ Usage.zero).2 =
      some (.toolCallDelta "1" "42") := by
  exact ⟨rfl, rfl⟩

/-- C2: the claim says every normalizer emits at most one terminal event and
nothing after a `Finish`.  The Gemini normalizer, fed a single well-formed
line that carries a finish reason together with usage metadata, emits a
`Finish` for the line and then a second, synthesized `Finish` after the byte
stream ends, because the trailing-finish guard checks only that the
accumulated usage total is non-zero. -/
theorem gemini_stream_two_terminal_events :
    create_gemini_stream (fun n => toString n) "gid"
      [.ok [.ok ⟨[⟨⟨"model", []⟩, some "STOP", none⟩], some ⟨some 3, some 2, some 5⟩⟩]] =
      [.ok (.finish ⟨3, 2, 5⟩ .stop), .ok (.finish ⟨3, 2, 5⟩ .stop)]
    ∧ ((create_gemini_stream (fun n => toString n) "gid"
      [.ok [.ok ⟨[⟨⟨"model", []⟩, some "STOP", none⟩], some ⟨some 3, some 2, some 5⟩⟩]]).filter
        isTerminalItem).length = 2 := by
  exact ⟨rfl, rfl⟩

/-- C4: the claim says the trailing `Finish{Stop}` is synthesized iff the
accumulated usage total is non-zero and no `Finish` was already emitted.  The
code never checks whether a `Finish` was emitted: a stream whose last line
carries both a finish reason and usage gets a duplicated trailing `Finish`
(first conjunct), while the claim's positive case (usage only on the last
line, no finish reason anywhere) does get exactly one trailing `Finish`
(second conjunct). -/
theorem gemini_trailing_finish_unconditional :
    create_gemini_stream (fun n => toString n) "gid2"
      [.ok [.ok ⟨[⟨⟨"model", [⟨some "Hello", none, none, none⟩]⟩, none, none⟩], none⟩,
            .ok ⟨[⟨⟨"model", []⟩, some "STOP", none⟩], some ⟨some 2, some 4, some 6⟩⟩]] =
      [.ok (.textDelta "gid2" "Hello"), .ok (.finish ⟨2, 4, 6⟩ .stop),
       .ok (.finish ⟨2, 4, 6⟩ .stop)]
    ∧ create_gemini_stream (fun n => toString n) "gid3"
      [.ok [.ok ⟨[⟨⟨"model", [⟨some "Hi", none, none, none⟩]⟩, none, none⟩], none⟩,
            .ok ⟨[⟨⟨"model", [⟨some "!", none, none, none⟩]⟩, none, none⟩],
              some ⟨some 1, some 2, some 3⟩⟩]] =
      [.ok (.textDelta "gid3" "Hi"), .ok (.textDelta "gid3" "!"),
       .ok (.finish ⟨1, 2, 3⟩ .stop)] := by
  exact ⟨rfl, rfl⟩

/-- C6: per Vendor-B chunk at most one unified event is emitted, chosen with
priority finish > tool-call > text > start, and the concrete chunk sequence
role-only, content `"Hi"`, finish `"stop"` with usage yields exactly
`Start, TextDelta("Hi"), Finish(usage, Stop)` with the usage captured from the
final chunk. -/
theorem openai_chunk_priority_and_sequence :
    create_openai_stream
      [.msg (.ok ⟨"chatcmpl-1", "chat.completion.chunk", 0, "gpt-4",
          [⟨0, ⟨some "assistant", none, none⟩, none⟩], none⟩),
       .msg (.ok ⟨"chatcmpl-1", "chat.completion.chunk", 0, "gpt-4",
          [⟨0, ⟨none, some "Hi", none⟩, none⟩], none⟩),
       .msg (.ok ⟨"chatcmpl-1", "chat.completion.chunk", 0, "gpt-4",
          [⟨0, ⟨none, none, none⟩, some "stop"⟩], some ⟨7, 5, 12⟩⟩),
       .done] =
      [.ok (.start "chatcmpl-1"), .ok (.textDelta "chatcmpl-1" "Hi"),
       .ok (.finish ⟨7, 5, 12⟩ .stop)]
    ∧ (∀ (chunk : ChatCompletionChunk) (acc : Option Usage),
        ((parse_chunk chunk acc).2.elim 0 (fun _ => 1)) ≤ 1)
    ∧ (∀ (chunk : ChatCompletionChunk) (acc : Option Usage) choice rest,
        chunk.choices = choice :: rest → ∀ r, choice.finish_reason = some r →
        (parse_chunk chunk acc).2 =
          some (.finish ((openai_capture_usage chunk acc).getD Usage.zero)
            (openai_map_finish (some r))))
    ∧ (∀ (chunk : ChatCompletionChunk) (acc : Option Usage) choice rest,
        chunk.choices = choice :: rest → choice.finish_reason = none →
        ∀ ev, choice.delta.tool_calls.bind openai_first_tool_event = some ev →
        (parse_chunk chunk acc).2 = some ev)
    ∧ (∀ (chunk : ChatCompletionChunk) (acc : Option Usage) choice rest,
        chunk.choices = choice :: rest → choice.finish_reason = none →
        choice.delta.tool_calls.bind openai_first_tool_event = none →
        ∀ s, choice.delta.content = some s →
        (parse_chunk chunk acc).2 = some (.textDelta chunk.id s))
    ∧ (∀ (chunk : ChatCompletionChunk) (acc : Option Usage) choice rest,
        chunk.choices = choice :: rest → choice.finish_reason = none →
        choice.delta.tool_calls.bind openai_first_tool_event = none →
        choice.delta.content = none → choice.delta.role.isSome = true →
        (parse_chunk chunk acc).2 = some (.start chunk.id)) := by
  refine ⟨rfl, ?_, ?_, ?_, ?_, ?_⟩
  · intro chunk acc
    cases (parse_chunk chunk acc).2 <;> simp
  · intro chunk acc choice rest hc r hr
    simp [parse_chunk, hc, hr]
  · intro chunk acc choice rest hc hfin ev htc
    simp [parse_chunk, hc, hfin, htc]
  · intro chunk acc choice rest hc hfin htc s hs
    simp [parse_chunk, hc, hfin, htc, hs]
  · intro chunk acc choice rest hc hfin htc hcont hrole
    simp [parse_chunk, hc, hfin, htc, hcont, hrole]

/-- C6 witness: the priority conjuncts applied at the concrete final chunk of
the claim's sequence. -/
theorem openai_chunk_priority_witness :
    (parse_chunk ⟨"chatcmpl-1", "chat.completion.chunk", 0, "gpt-4",
        [⟨0, ⟨none, none, none⟩, some "stop"⟩], some ⟨7, 5, 12⟩⟩ none).2 =
      some (.finish ⟨7, 5, 12⟩ .stop)
    ∧ (parse_chunk ⟨"chatcmpl-1", "chat.completion.chunk", 0, "gpt-4",
        [⟨0, ⟨none, some "Hi", none⟩, none⟩], none⟩ none).2 =
      some (.textDelta "chatcmpl-1" "Hi")
    ∧ (parse_chunk ⟨"chatcmpl-1", "chat.completion.chunk", 0, "gpt-4",
        [⟨0, ⟨some "assistant", none, none⟩, none⟩], none⟩ none).2 =
      some (.start "chatcmpl-1") := by
  refine ⟨?_, ?_, ?_⟩
  · exact openai_chunk_priority_and_sequence.2.2.1 _ none
      ⟨0, ⟨none, none, none⟩, some "stop"⟩ [] rfl "stop" rfl
  · exact openai_chunk_priority_and_sequence.2.2.2.2.1 _ none
      ⟨0, ⟨none, some "Hi", none⟩, none⟩ [] rfl rfl rfl "Hi" rfl
  · exact openai_chunk_priority_and_sequence.2.2.2.2.2 _ none
      ⟨0, ⟨some "assistant", none, none⟩, none⟩ [] rfl rfl rfl rfl rfl

/-- C1 counterexample: an OpenAI response whose message carries a tool call but
whose vendor finish_reason is `"stop"` parses successfully into a unified
response whose content contains a `ToolCall` while its finish_reason is `Stop`,
not `ToolCalls` — the OpenAI parser applies no override. -/
theorem openai_response_no_toolcalls_override :
    from_openai_response (fun _ => none)
      ⟨"id1", "chat.completion", 0, "gpt-4",
        [⟨0, ⟨"assistant", none, none, some [⟨"call_1", "function", ⟨"f", "17"⟩⟩], none⟩,
          some "stop"⟩],
        ⟨1, 2, 3⟩⟩ =
      .ok ⟨[.toolCall ⟨"call_1", "f", .obj []⟩], ⟨1, 2, 3⟩, .stop,
        some (.obj [("id", .str "id1"), ("model", .str "gpt-4"), ("created", .num 0)])⟩
    ∧ ([ResponseContent.toolCall ⟨"call_1", "f", .obj []⟩].any
        ResponseContent.isToolCall) = true
    ∧ ¬(FinishReason.stop = FinishReason.toolCalls) := by
  exact ⟨rfl, rfl, by decide⟩

/-- C1 amended: the ToolCalls override holds for the Anthropic and Gemini
response parsers — any tool call in the parsed content forces
`finish_reason = ToolCalls` — while the OpenAI parser instead maps the
vendor's finish_reason string verbatim, so its result is `ToolCalls` only when
the vendor itself reported `tool_calls`. -/
theorem toolcalls_override_per_vendor :
    (∀ (resp : AnthropicResponse) (out : GenerateResponse),
      from_anthropic_response resp = .ok out →
      out.content.any ResponseContent.isToolCall = true →
      out.finish_reason = .toolCalls)
    ∧ (∀ (fresh : Nat → String) (resp : GeminiResponse) (out : GenerateResponse),
      from_gemini_response fresh resp = .ok out →
      out.content.any ResponseContent.isToolCall = true →
      out.finish_reason = .toolCalls)
    ∧ (∀ (parseArgs : String → Option Json) (resp : ChatCompletionResponse)
        choice rest (out : GenerateResponse),
      resp.choices = choice :: rest →
      from_openai_response parseArgs resp = .ok out →
      out.finish_reason = openai_map_finish choice.finish_reason) := by
  refine ⟨?_, ?_, ?_⟩
  · intro resp out h hany
    simp only [from_anthropic_response] at h
    split at h
    · cases h
    · cases h
      simp_all
  · intro fresh resp out h hany
    simp only [from_gemini_response] at h
    split at h
    · cases h
    · split at h
      · cases h
      · cases h
        simp_all
  · intro parseArgs resp choice rest out hc h
    unfold from_openai_response at h
    rw [hc] at h
    simp only [List.head?] at h
    cases h
    rfl

/-- C1 witness: the Anthropic conjunct of the amended theorem applied to a
concrete response containing a `tool_use` block with vendor stop reason
`end_turn`. -/
theorem toolcalls_override_witness :
    from_anthropic_response
      ⟨"i", "message", "assistant",
        [⟨"tool_use", none, none, some "t1", some "f", some (.obj [])⟩],
        "m", some "end_turn", ⟨1, 1⟩⟩ =
      .ok ⟨[.toolCall ⟨"t1", "f", .obj []⟩], ⟨1, 1, 2⟩, .toolCalls,
        some (.obj [("id", .str "i"), ("model", .str "m")])⟩
    ∧ ([ResponseContent.toolCall ⟨"t1", "f", .obj []⟩].any
        ResponseContent.isToolCall) = true
    ∧ (GenerateResponse.mk [.toolCall ⟨"t1", "f", .obj []⟩] ⟨1, 1, 2⟩ .toolCalls
        (some (.obj [("id", .str "i"), ("model", .str "m")]))).finish_reason =
      .toolCalls := by
  refine ⟨rfl, rfl, ?_⟩
  exact toolcalls_override_per_vendor.1
    ⟨"i", "message", "assistant",
      [⟨"tool_use", none, none, some "t1", some "f", some (.obj [])⟩],
      "m", some "end_turn", ⟨1, 1⟩⟩
    _ rfl rfl

/-- C10: the Anthropic and Gemini response parsers reject with the
invalid-response error "No content in response" whenever the converted content
list is empty (for Gemini, even though a candidate is present), whereas the
OpenAI parser performs no such check and can return a unified response with an
empty content list (third conjunct: a choice whose message has no string
content and no tool calls parses successfully to empty content). -/
theorem empty_content_check_asymmetry :
    (∀ resp : AnthropicResponse, anthropic_response_content resp.content = [] →
      from_anthropic_response resp =
        .error (.invalidResponse "No content in response"))
    ∧ (∀ (fresh : Nat → String) (resp : GeminiResponse) cand rest,
      resp.candidates = cand :: rest →
      gemini_response_content fresh 0 cand.content.parts = [] →
      from_gemini_response fresh resp =
        .error (.invalidResponse "No content in response"))
    ∧ (from_openai_response (fun _ => none)
      ⟨"id0", "chat.completion", 0, "m",
        [⟨0, ⟨"assistant", none, none, none, none⟩, some "stop"⟩], ⟨1, 2, 3⟩⟩ =
      .ok ⟨[], ⟨1, 2, 3⟩, .stop,
        some (.obj [("id", .str "id0"), ("model", .str "m"), ("created", .num 0)])⟩) := by
  refine ⟨?_, ?_, rfl⟩
  · intro resp h
    simp only [from_anthropic_response, h]
    rfl
  · intro fresh resp cand rest hc h
    simp only [from_gemini_response, hc, List.head?, h]
    rfl

/-- C10 witness: the Anthropic conjunct at a response whose single content
block has an unrecognized type, and the Gemini conjunct at a response whose
single candidate part carries neither text nor a function call. -/
theorem empty_content_check_witness :
    from_anthropic_response
      ⟨"i", "message", "assistant", [⟨"mystery", none, none, none, none, none⟩],
        "m", some "end_turn", ⟨1, 1⟩⟩ =
      .error (.invalidResponse "No content in response")
    ∧ from_gemini_response (fun _ => "u")
      ⟨[⟨⟨"model", [⟨none, none, none, none⟩]⟩, some "STOP", none⟩], none⟩ =
      .error (.invalidResponse "No content in response") := by
  refine ⟨?_, ?_⟩
  · exact empty_content_check_asymmetry.1
      ⟨"i", "message", "assistant", [⟨"mystery", none, none, none, none, none⟩],
        "m", some "end_turn", ⟨1, 1⟩⟩ rfl
  · exact empty_content_check_asymmetry.2.1 (fun _ => "u")
      ⟨[⟨⟨"model", [⟨none, none, none, none⟩]⟩, some "STOP", none⟩], none⟩
      ⟨⟨"model", [⟨none, none, none, none⟩]⟩, some "STOP", none⟩ [] rfl rfl

/-- C5 counterexample: a bare remote URL fed to the Gemini translator does not
produce a translation error — the image part is silently substituted by a
bracketed text placeholder, and the translation succeeds. -/
theorem gemini_bare_url_substitution :
    to_gemini_content ⟨.user, .parts [.image "https://example.com/cat.png" none], none⟩ =
      .ok ⟨"user", [⟨some "[Image: https://example.com/cat.png]", none, none, none⟩]⟩ := by
  rfl

/-- C5 amended: a well-formed data URL parses into its media type and payload
in both base64-requiring translators; a URL that does not start with `data:`
makes the Anthropic translator fail with a translation error before any
network call, while the Gemini translator's image parser fails internally but
the translator itself substitutes a `[Image: <url>]` text part and succeeds. -/
theorem image_data_url_handling :
    (∀ mime payload : String, ¬(',' ∈ mime.data) →
      parse_image_source ("data:" ++ mime ++ ";base64," ++ payload) =
        .ok (.obj [("type", .str "base64"), ("media_type", .str mime),
          ("data", .str payload)])
      ∧ parse_image_data ("data:" ++ mime ++ ";base64," ++ payload) =
        .ok ⟨mime, payload⟩)
    ∧ (∀ url : String, starts_with url "data:" = false →
      parse_image_source url =
        .error (.invalidResponse "Anthropic requires base64-encoded images, not URLs")
      ∧ to_anthropic_message ⟨.user, .parts [.image url none], none⟩ =
        .error (.invalidResponse "Anthropic requires base64-encoded images, not URLs")
      ∧ parse_image_data url =
        .error (.invalidResponse "Gemini requires base64-encoded images, not URLs")
      ∧ to_gemini_content ⟨.user, .parts [.image url none], none⟩ =
        .ok ⟨"user", [⟨some ("[Image: " ++ url ++ "]"), none, none, none⟩]⟩) := by
  constructor
  · intro mime payload hm
    exact ⟨parse_image_source_dataurl mime payload hm,
      parse_image_data_dataurl mime payload hm⟩
  · intro url h
    refine ⟨?_, ?_, ?_, ?_⟩
    · simp [parse_image_source, h]
    · simp only [to_anthropic_message, Message.partsOf, MessageContent.toParts,
        anthropic_content_json, anthropic_part_json, parse_image_source, h,
        Bool.false_eq_true, if_false]
      rfl
    · simp [parse_image_data, h]
    · simp [to_gemini_content, Message.partsOf, MessageContent.toParts,
        gemini_part_of, parse_image_data, h]

/-- C5 witness: the amended theorem at the spec's concrete data URL and at a
concrete `https` URL. -/
theorem image_data_url_witness :
    (¬(',' ∈ "image/png".data))
    ∧ parse_image_source ("data:" ++ "image/png" ++ ";base64," ++ "iVBORw0KG") =
      .ok (.obj [("type", .str "base64"), ("media_type", .str "image/png"),
        ("data", .str "iVBORw0KG")])
    ∧ starts_with "https://example.com/cat.png" "data:" = false
    ∧ parse_image_data "https://example.com/cat.png" =
      .error (.invalidResponse "Gemini requires base64-encoded images, not URLs") := by
  refine ⟨by decide, ?_, by decide, ?_⟩
  · exact (image_data_url_handling.1 "image/png" "iVBORw0KG" (by decide)).1
  · exact (image_data_url_handling.2 "https://example.com/cat.png" (by decide)).2.2.1

theorem to_anthropic_message_role (m : Message) (am : AnthropicMessage)
    (h : to_anthropic_message m = .ok am) :
    am.role = "user" ∨ am.role = "assistant" := by
  rcases m with ⟨role, content, name⟩
  cases role with
  | user =>
    simp only [to_anthropic_message] at h
    split at h
    · cases h; exact Or.inl rfl
    · cases h
  | assistant =>
    simp only [to_anthropic_message] at h
    split at h
    · cases h; exact Or.inr rfl
    · cases h
  | system => simp only [to_anthropic_message] at h; cases h
  | tool => simp only [to_anthropic_message] at h; cases h

/-- C7: the model-name max-token tiers at the spec's five sample models, and:
whenever the translator succeeds, the wire request's required `max_tokens`
equals the caller-supplied value when present, else the inferred tier for the
model name. -/
theorem anthropic_max_tokens_inference :
    infer_max_tokens "claude-opus-4-5" = 64000
    ∧ infer_max_tokens "claude-sonnet-4" = 64000
    ∧ infer_max_tokens "claude-opus-4" = 32000
    ∧ infer_max_tokens "claude-3-5-sonnet" = 8192
    ∧ infer_max_tokens "claude-3-opus" = 4096
    ∧ ∀ (req : GenerateRequest) (stream : Bool) (out : AnthropicRequest),
      to_anthropic_request req stream = .ok out →
      out.max_tokens = req.options.max_tokens.getD (infer_max_tokens req.model) := by
  refine ⟨by decide, by decide, by decide, by decide, by decide, ?_⟩
  intro req stream out h
  simp only [to_anthropic_request] at h
  split at h
  · cases h
  · cases h
    rfl

/-- C7 witness: the translator applied to a request without a caller-supplied
`max_tokens` (the default tier 4096 is used for `claude-3-opus`), discharging
the theorem's success hypothesis at that input. -/
theorem anthropic_max_tokens_witness :
    to_anthropic_request
      ⟨"claude-3-opus", [⟨.user, .text "Hi", none⟩], GenerateOptions.empty⟩ false =
      .ok ⟨"claude-3-opus", [⟨"user", .str "Hi"⟩], 4096, none, none, none, none,
        none, none, none, none⟩
    ∧ (AnthropicRequest.mk "claude-3-opus" [⟨"user", .str "Hi"⟩] 4096 none none
        none none none none none none).max_tokens =
      GenerateOptions.empty.max_tokens.getD (infer_max_tokens "claude-3-opus") :=
  ⟨rfl, anthropic_max_tokens_inference.2.2.2.2.2
    ⟨"claude-3-opus", [⟨.user, .text "Hi", none⟩], GenerateOptions.empty⟩ false
    ⟨"claude-3-opus", [⟨"user", .str "Hi"⟩], 4096, none, none, none, none,
      none, none, none, none⟩ rfl⟩

/-- C8: whenever the Anthropic translator succeeds, the wire message array
contains no system-role message (every role is `user` or `assistant`, and
exactly the non-system messages are kept), and the top-level `system` field is
the blank-line-separated concatenation of the system messages' texts in order
(absent when there are none). -/
theorem anthropic_system_extraction :
    ∀ (req : GenerateRequest) (stream : Bool) (out : AnthropicRequest),
      to_anthropic_request req stream = .ok out →
      out.system = (if (system_texts req).isEmpty then none
        else some (String.intercalate "\n\n" (system_texts req)))
      ∧ out.messages.length =
        (req.messages.filter (fun m => ¬(m.role = Role.system))).length
      ∧ ∀ am ∈ out.messages, am.role = "user" ∨ am.role = "assistant" := by
  intro req stream out h
  simp only [to_anthropic_request] at h
  split at h
  · cases h
  next msgs heq =>
    cases h
    refine ⟨rfl, exceptMapM_length _ _ _ heq, ?_⟩
    exact exceptMapM_forall to_anthropic_message
      (fun am => am.role = "user" ∨ am.role = "assistant")
      (fun m am hm => to_anthropic_message_role m am hm) _ _ heq

/-- C8 witness: the theorem at a request with two system messages around a user
message; the system texts concatenate with a blank line and the remaining wire
message is user-role. -/
theorem anthropic_system_extraction_witness :
    to_anthropic_request
      ⟨"claude-3", [⟨.system, .text "You are helpful", none⟩,
        ⟨.user, .text "Hi", none⟩, ⟨.system, .text "Be brief", none⟩],
        GenerateOptions.empty⟩ false =
      .ok ⟨"claude-3", [⟨"user", .str "Hi"⟩], 4096,
        some "You are helpful\n\nBe brief", none, none, none, none, none,
        none, none⟩
    ∧ (AnthropicRequest.mk "claude-3" [⟨"user", .str "Hi"⟩] 4096
        (some "You are helpful\n\nBe brief") none none none none none
        none none).system = some "You are helpful\n\nBe brief"
    ∧ (∀ am ∈ (AnthropicRequest.mk "claude-3" [⟨"user", .str "Hi"⟩] 4096
        (some "You are helpful\n\nBe brief") none none none none none
        none none).messages, am.role = "user" ∨ am.role = "assistant") := by
  refine ⟨rfl, rfl, ?_⟩
  exact (anthropic_system_extraction
    ⟨"claude-3", [⟨.system, .text "You are helpful", none⟩,
      ⟨.user, .text "Hi", none⟩, ⟨.system, .text "Be brief", none⟩],
      GenerateOptions.empty⟩ false
    ⟨"claude-3", [⟨"user", .str "Hi"⟩], 4096,
      some "You are helpful\n\nBe brief", none, none, none, none, none,
      none, none⟩ rfl).2.2

theorem content_part_round_trip (p : ContentPart) :
    deserialize_content_part (serialize_content_part p) = .ok p := by
  cases p with
  | text t => rfl
  | image url detail =>
    cases detail with
    | none => rfl
    | some d => cases d <;> rfl
  | toolCall id name arguments => rfl
  | toolResult tool_call_id content => rfl

theorem content_parts_round_trip (ps : List ContentPart) :
    exceptMapM deserialize_content_part (ps.map serialize_content_part) = .ok ps := by
  induction ps with
  | nil => rfl
  | cons p rest ih =>
    simp only [List.map_cons, exceptMapM, content_part_round_trip, ih]

/-- C9: `MessageContent` serialization round-trips exactly: the text variant
serializes to a bare JSON string and deserializes back to the text variant
(never the parts variant), the parts variant serializes to an array of tagged
objects and deserializes back to itself, and deserialization accepts either
shape, yielding the matching variant. -/
theorem message_content_round_trip :
    (∀ t : String, serialize_message_content (.text t) = .str t
      ∧ deserialize_message_content (.str t) = .ok (.text t))
    ∧ (∀ ps : List ContentPart,
      serialize_message_content (.parts ps) = .arr (ps.map serialize_content_part)
      ∧ deserialize_message_content (serialize_message_content (.parts ps)) =
        .ok (.parts ps)) := by
  constructor
  · intro t
    exact ⟨rfl, rfl⟩
  · intro ps
    refine ⟨rfl, ?_⟩
    simp only [serialize_message_content, deserialize_message_content,
      content_parts_round_trip]
